import Mathlib

/-!
# Verification of the kepler.gl map-style reducer (`src/reducers/map-style-updaters.js`)

Shallow embedding of the map-style state controller.  JavaScript objects are
modelled as association lists (`List (String × α)`) where a later entry shadows
an earlier one, exactly like a later `...spread`; `undefined`/`null` fields are
`Option`.  The helpers imported from `utils/map-style-utils/mapbox-gl-style-editor`
(`editTopMapStyle`, `editBottomMapStyle`, `getDefaultLayerGroupVisibility`,
`mergeLayerGroupVisibility`, `getStyleDownloadUrl`) are not part of this
repository snapshot, so they are modelled from the specification; every such
definition carries a doc comment starting with `Modelled from the spec:`.
All other definitions are translated directly from the source file.
-/

/-- One layer of a mapbox style document.  Only the fields the reducer ever
touches are explicit (`id`, `paint`, the effective visibility); everything
else is an opaque passthrough payload in `rest`. -/
structure Layer where
  id : String
  paint : List (String × String) := []
  visibility : Bool := true
  rest : String := ""
  deriving DecidableEq

/-- A (possibly malformed) mapbox style document: an ordered layer list —
`none` models a missing `layers` key — plus opaque passthrough data. -/
structure StyleDocument where
  layers : Option (List Layer) := none
  rest : String := ""
  deriving DecidableEq

/-- A named layer group: a slug, a predicate over a layer's `id` used for
classification, and the group's default visibility.  The concrete set
(`DEFAULT_LAYER_GROUPS`, not under `src/`) is kept abstract: definitions take
the group list as an argument. -/
structure LayerGroup where
  slug : String
  filter : String → Bool
  defaultVisibility : Bool

/-- A style registry entry.  The same record also serves as the `inputStyle`
staging area (the source stores `state.inputStyle` directly into `mapStyles`),
which is why every field is optional or defaulted. -/
structure StyleDefinition where
  id : Option String := none
  label : Option String := none
  url : Option String := none
  icon : Option String := none
  style : Option StyleDocument := none
  layerGroups : List LayerGroup := []
  accessToken : Option String := none
  isValid : Bool := false
  error : Bool := false
  custom : Bool := false

/-- `{[groupName]: boolean}` visibility toggles. -/
abbrev VisibilityMap := List (String × Bool)

/-- The two d3-color channel operations the deriver can apply. -/
inductive D3Op where
  | brighter
  | darker
  deriving DecidableEq

/-- The `threeDBuildingColor` value.  d3's `brighter`/`darker` produce IEEE
doubles, so the derived value is kept symbolically: the chosen operation
together with the css color string fed to `d3.rgb`; `rgbInt` is a plain
integer triple (the initial `hexToRgb('#D1CEC7')`), and `typeError` marks the
crash `style.id.match` would raise on a missing id. -/
inductive BuildingColor where
  | rgbInt (r g b : Nat)
  | d3Applied (op : D3Op) (css : String)
  | typeError
  deriving DecidableEq

/-- The record returned by `getMapStyles` in the resolved case
(`{bottomMapStyle, topMapStyle, editable, threeDBuildingColor}`). -/
structure DerivedMapStyles where
  bottomMapStyle : StyleDocument
  topMapStyle : Option StyleDocument
  editable : Nat
  threeDBuildingColor : BuildingColor
  deriving DecidableEq

/-- The `mapStyle` reducer state.  The derived fields default to `none`
because the initial state carries no `bottomMapStyle`/`topMapStyle`/`editable`
keys; a `topMapStyle` of `none` also stands for an explicit `null`. -/
structure MapStyleState where
  styleType : String
  visibleLayerGroups : VisibilityMap := []
  topLayerGroups : VisibilityMap := []
  mapStyles : List (String × StyleDefinition) := []
  mapboxApiAccessToken : Option String := none
  inputStyle : StyleDefinition := {}
  threeDBuildingColor : BuildingColor := .rgbInt 209 206 199
  bottomMapStyle : Option StyleDocument := none
  topMapStyle : Option StyleDocument := none
  editable : Option Nat := none

/-- The shape of a saved `cfg.mapStyle` payload (§6 of the spec): only the
four canonical fields are ever persisted, each optional because the payload
is spread over the state. -/
structure ConfigPayload where
  styleType : Option String := none
  visibleLayerGroups : Option VisibilityMap := none
  topLayerGroups : Option VisibilityMap := none
  mapStyles : Option (List (String × StyleDefinition)) := none

/-- A style URL resolved with an access token. -/
structure DownloadUrl where
  styleUrl : Option String
  token : Option String
  deriving DecidableEq

/-- One scheduled `LOAD_MAP_STYLE_TASK` input: `{id, url}`. -/
structure LoadTask where
  id : Option String
  url : DownloadUrl
  deriving DecidableEq

/-- Property read on a JavaScript object: the value of the *last* entry for
the key, `none` when the key is absent (reads as `undefined`). -/
def jsGet {α : Type} : List (String × α) → String → Option α
  | [], _ => none
  | kv :: rest, k =>
    match jsGet rest k with
    | some v => some v
    | none => if kv.1 = k then some kv.2 else none

/-- JavaScript truthiness of `vm[k]` for a visibility map: a missing key is
`undefined`, hence falsy. -/
def truthy (vm : VisibilityMap) (k : String) : Bool :=
  (jsGet vm k).getD false

/-- `{...base, ...extra}`: with last-entry-wins reads, an object spread is
list concatenation. -/
def objSpread {α : Type} (base extra : List (String × α)) : List (String × α) :=
  base ++ extra

/-- `cs` starts with the pattern `p`. -/
def charsStartWith : List Char → List Char → Bool
  | _, [] => true
  | [], _ :: _ => false
  | c :: cs, p :: ps => c == p && charsStartWith cs ps

/-- Some suffix of `cs` starts with the pattern `p`. -/
def charsContain : List Char → List Char → Bool
  | [], p => p.isEmpty
  | c :: cs, p => charsStartWith (c :: cs) p || charsContain cs p

/-- `s` contains `pat` as a substring. -/
def containsSubstring (s pat : String) : Bool :=
  charsContain s.toList pat.toList

/-- JavaScript `a || b` on possibly-missing strings: `b` when `a` is absent
(`undefined`/`null`) or the empty string (both falsy), else `a`. -/
def jsOrString (a b : Option String) : Option String :=
  match a with
  | some s => if s = "" then b else some s
  | none => b

/-- Translation of the regex test `style.id.match(/(?=(dark|night))/)`: the
lookahead matches iff `"dark"` or `"night"` occurs in the id (case-sensitive). -/
def matchDarkNight (id : String) : Bool :=
  containsSubstring id "dark" || containsSubstring id "night"

def DEFAULT_BLDG_COLOR : String := "#D1CEC7"

/-- Translation of `get3DBuildingColor(style)` (source lines 172–181), taking
the style's `id` and its resolved document separately (the caller
`getMapStyles` has already checked `style.style` is non-null).  The source
guards `(style.style.layers || [])`, hence `layers.getD []`; the ternary at
line 175 tests JavaScript truthiness of the paint value, so an empty string
falls back like a missing one; `style.id.match` on a missing id would raise,
modelled by `typeError`. -/
def get3DBuildingColor (id : Option String) (doc : StyleDocument) : BuildingColor :=
  match id with
  | none => .typeError
  | some styleId =>
    let backgroundLayer := (doc.layers.getD []).find? (fun l => l.id == "background")
    let buildingColor :=
      match backgroundLayer with
      | some l =>
        match jsGet l.paint "background-color" with
        | some c => if c = "" then DEFAULT_BLDG_COLOR else c
        | none => DEFAULT_BLDG_COLOR
      | none => DEFAULT_BLDG_COLOR
    .d3Applied (if matchDarkNight styleId then .brighter else .darker) buildingColor

/-- Translation of `getLayerGroupsFromStyle(style)` (source lines 183–185).
`style.layers.filter` is evaluated with no guard, so a missing `layers` key
raises a `TypeError`, modelled as `Except.error`; the source keeps a group
when `style.layers.filter(lg.filter).length` is truthy, i.e. nonzero. -/
def getLayerGroupsFromStyle (groups : List LayerGroup) (style : StyleDocument) :
    Except String (List LayerGroup) :=
  match style.layers with
  | none => .error "TypeError: Cannot read property filter of undefined"
  | some ls => .ok (groups.filter (fun lg => (ls.filter (fun l => lg.filter l.id)).length != 0))

/-- Modelled from the spec: the Style Editor of §4.2 (`editBottomMapStyle` /
`editTopMapStyle` in `utils/map-style-utils/mapbox-gl-style-editor`, not under
`src/`).  "if `visibilityMap` is empty, return the document unchanged"; else
"for every layer belonging to a known group, set its effective
visibility/paint per `visibilityMap[group]`; layers not belonging to any known
group are untouched", reading `visibilityMap[group]` with JavaScript
truthiness (missing ⇒ hidden).  A missing `layers` sequence is zero matches
(§7).  Group predicates test the layer's id, which the rewrite never changes. -/
def editMapStyle (groups : List LayerGroup) (doc : StyleDocument) (vm : VisibilityMap) :
    StyleDocument :=
  if vm.isEmpty then doc
  else
    { doc with
      layers := doc.layers.map (fun ls => ls.map (fun l =>
        match groups.find? (fun g => g.filter l.id) with
        | some g => { l with visibility := truthy vm g.slug }
        | none => l)) }

/-- Modelled from the spec: `getDefaultLayerGroupVisibility(mapStyle)` (not
under `src/`): the default visibility recomputed for a style (§4.4) maps each
of the style's layer groups to that group's default visibility. -/
def getDefaultLayerGroupVisibility (d : StyleDefinition) : VisibilityMap :=
  d.layerGroups.map (fun g => (g.slug, g.defaultVisibility))

/-- Modelled from the spec: `mergeLayerGroupVisibility(default, current)` (not
under `src/`): "merge any previously customized group overrides forward"
(§4.4) — for each group of the new style's default map, a previously
customized value wins over the default. -/
def mergeLayerGroupVisibility (dflt current : VisibilityMap) : VisibilityMap :=
  dflt.map (fun kv => (kv.1, (jsGet current kv.1).getD kv.2))

/-- Modelled from the spec: `getStyleDownloadUrl(url, accessToken)` (not under
`src/`): "URLs pre-resolved with an access token query parameter where
required" (§4.5) — the style url paired with the resolved token. -/
def getStyleDownloadUrl (url : Option String) (token : Option String) : DownloadUrl :=
  ⟨url, token⟩

/-- The `topLayers` object built at source lines 151–159: a reduce over the
keys of `topLayerGroups`, masking each value with the bottom visibility
(`topLayerGroups[key] && visibleLayerGroups[key]`). -/
def topLayersOf (topLayerGroups visibleLayerGroups : VisibilityMap) : VisibilityMap :=
  topLayerGroups.map (fun kv => (kv.1, kv.2 && truthy visibleLayerGroups kv.1))

/-- Translation of `getMapStyles({styleType, visibleLayerGroups,
topLayerGroups, mapStyles})` (source lines 125–170).  `none` is the early
`return {}` when the active entry is absent or unresolved.  In the
non-editable branch the source returns `Immutable.fromJS(mapStyle.style)`,
the identity up to deep equality. -/
def getMapStyles (styleType : String) (visibleLayerGroups topLayerGroups : VisibilityMap)
    (mapStyles : List (String × StyleDefinition)) : Option DerivedMapStyles :=
  match jsGet mapStyles styleType with
  | none => none
  | some mapStyle =>
    match mapStyle.style with
    | none => none
    | some doc =>
      let editable := visibleLayerGroups.length
      let bottomMapStyle :=
        if editable = 0 then doc
        else editMapStyle mapStyle.layerGroups doc visibleLayerGroups
      let hasTopLayer := decide (editable ≠ 0) && topLayerGroups.any (fun kv => kv.2)
      let topMapStyle :=
        if hasTopLayer then
          some (editMapStyle mapStyle.layerGroups doc (topLayersOf topLayerGroups visibleLayerGroups))
        else none
      some { bottomMapStyle := bottomMapStyle, topMapStyle := topMapStyle,
             editable := editable, threeDBuildingColor := get3DBuildingColor mapStyle.id doc }

/-- `getMapStyles` applied to a state's four canonical inputs. -/
def getMapStylesOf (s : MapStyleState) : Option DerivedMapStyles :=
  getMapStyles s.styleType s.visibleLayerGroups s.topLayerGroups s.mapStyles

/-- Spreading a `getMapStyles` result over a state: spreading the empty object
leaves every previous derived field in place; spreading the full record
overwrites all four. -/
def applyDerived (s : MapStyleState) : Option DerivedMapStyles → MapStyleState
  | none => s
  | some d =>
    { s with bottomMapStyle := some d.bottomMapStyle, topMapStyle := d.topMapStyle,
             editable := some d.editable, threeDBuildingColor := d.threeDBuildingColor }

/-- `{...state, ...action.payload}` for a saved-config payload. -/
def mergeConfig (s : MapStyleState) (p : ConfigPayload) : MapStyleState :=
  { s with styleType := p.styleType.getD s.styleType,
           visibleLayerGroups := p.visibleLayerGroups.getD s.visibleLayerGroups,
           topLayerGroups := p.topLayerGroups.getD s.topLayerGroups,
           mapStyles := p.mapStyles.getD s.mapStyles }

/-- Translation of `mapConfigChangeUpdater` (source lines 213–220). -/
def mapConfigChangeUpdater (s : MapStyleState) (p : ConfigPayload) : MapStyleState :=
  let merged := mergeConfig s p
  applyDerived merged (getMapStylesOf merged)

/-- Translation of `mapStyleChangeUpdater` (source lines 231–252): the guard
is `!state.mapStyles[styleType]` — it returns the state unchanged only when
the entry is absent; otherwise it merges visibility, sets `styleType` and
spreads the `getMapStyles` result (which is empty when the entry is
unresolved). -/
def mapStyleChangeUpdater (s : MapStyleState) (styleType : String) : MapStyleState :=
  match jsGet s.mapStyles styleType with
  | none => s
  | some styleDef =>
    let defaultLGVisibility := getDefaultLayerGroupVisibility styleDef
    let visibleLayerGroups := mergeLayerGroupVisibility defaultLGVisibility s.visibleLayerGroups
    applyDerived { s with styleType := styleType, visibleLayerGroups := visibleLayerGroups }
      (getMapStyles styleType visibleLayerGroups s.topLayerGroups s.mapStyles)

/-- Translation of `loadMapStylesUpdater` (source lines 263–278). -/
def loadMapStylesUpdater (s : MapStyleState) (newStyles : List (String × StyleDefinition)) :
    MapStyleState :=
  let newState := { s with mapStyles := objSpread s.mapStyles newStyles }
  match jsGet newStyles s.styleType with
  | some _ => mapStyleChangeUpdater newState s.styleType
  | none => newState

/-- Translation of `receiveMapConfigUpdater` (source lines 300–338), returning
the next state together with the scheduled task list (`none` when no
`withTask` wrapper is produced).  The task list maps over *every* value of
`mapStyle.mapStyles`, tagging each with
`accessToken || state.mapboxApiAccessToken` — JS truthiness, so an absent or
empty-string entry token falls back to the state's token. -/
def receiveMapConfigUpdater (s : MapStyleState) (mapStyle : Option ConfigPayload) :
    MapStyleState × Option (List LoadTask) :=
  match mapStyle with
  | none => (s, none)
  | some cfg =>
    let loadMapStyleTasks := cfg.mapStyles.map (fun entries =>
      entries.map (fun kv =>
        { id := kv.2.id,
          url := getStyleDownloadUrl kv.2.url
            (jsOrString kv.2.accessToken s.mapboxApiAccessToken) }))
    (mapConfigChangeUpdater s cfg, loadMapStyleTasks)

/-- Translation of `getInitialInputStyle()` (source lines 435–445).  The
source object carries no `id`, `icon` or `layerGroups` keys, so those fields
take their absent defaults. -/
def getInitialInputStyle : StyleDefinition :=
  { accessToken := none, error := false, isValid := false, label := none,
    style := none, url := none, custom := true }

/-- Translation of `addCustomMapStyleUpdater` (source lines 420–433).  A
missing `inputStyle.id` would become the literal computed key `"undefined"`
in JavaScript, hence the `getD`. -/
def addCustomMapStyleUpdater (s : MapStyleState) : MapStyleState :=
  let styleId := s.inputStyle.id.getD "undefined"
  let newState := { s with
                    mapStyles := objSpread s.mapStyles [(styleId, s.inputStyle)],
                    inputStyle := getInitialInputStyle }
  mapStyleChangeUpdater newState styleId

/-- Idealized real-valued semantics of the d3-color channel factor: d3's
`brighter(k)` multiplies every channel by `Math.pow(1/0.7, k)` and `darker(k)`
by `Math.pow(0.7, k)`, with `k = 0.2` at source line 179, and neither rounds
nor clamps.  The float computation itself is not embeddable, so the factor is
the exact real `(10/7)^(1/5)` resp. `(7/10)^(1/5)` (hence `noncomputable`). -/
noncomputable def d3Factor : D3Op → ℝ
  | .brighter => ((10 : ℝ) / 7) ^ ((1 : ℝ) / 5)
  | .darker => ((7 : ℝ) / 10) ^ ((1 : ℝ) / 5)

/-- One output channel of `rgb(color)[operation]([0.2])`: the parsed integer
channel scaled by the d3 factor, with no rounding and no clamping. -/
noncomputable def d3ApplyChannel (op : D3Op) (c : Nat) : ℝ :=
  (c : ℝ) * d3Factor op

/-- One hex digit of a css color, as parsed by d3-color. -/
def hexDigitVal (c : Char) : Option Nat :=
  if '0' ≤ c ∧ c ≤ '9' then some (c.toNat - '0'.toNat)
  else if 'a' ≤ c ∧ c ≤ 'f' then some (c.toNat - 'a'.toNat + 10)
  else if 'A' ≤ c ∧ c ≤ 'F' then some (c.toNat - 'A'.toNat + 10)
  else none

/-- d3-color's parsing of a 6-digit `#rrggbb` css color into integer
channels. -/
def parseHexColor (s : String) : Option (Nat × Nat × Nat) :=
  match s.toList with
  | ['#', r1, r2, g1, g2, b1, b2] =>
    match hexDigitVal r1, hexDigitVal r2, hexDigitVal g1, hexDigitVal g2,
          hexDigitVal b1, hexDigitVal b2 with
    | some a, some b, some c, some d, some e, some f =>
      some (16 * a + b, 16 * c + d, 16 * e + f)
    | _, _, _, _, _, _ => none
  | _ => none

/-- The group a layer is assigned to by the editor/classifier mechanism: the
first group whose predicate matches the layer's id. -/
def assignedGroup (groups : List LayerGroup) (l : Layer) : Option String :=
  (groups.find? (fun g => g.filter l.id)).map (fun g => g.slug)

/-- Group `slug` "appears visible" in a document: some layer assigned to that
group has effective visibility `true`. -/
def groupVisibleIn (groups : List LayerGroup) (doc : StyleDocument) (slug : String) : Bool :=
  (doc.layers.getD []).any (fun l => (assignedGroup groups l == some slug) && l.visibility)

/-- The claim's description of the building-color source: the paint
`background-color` of the layer whose id is exactly `"background"`. -/
def bgPaint (doc : StyleDocument) : Option String :=
  ((doc.layers.getD []).find? (fun l => l.id == "background")).bind
    (fun l => jsGet l.paint "background-color")

/-- The four derived fields of a state, as a tuple. -/
def derivedQuad (s : MapStyleState) :
    Option StyleDocument × Option StyleDocument × Option Nat × BuildingColor :=
  (s.bottomMapStyle, s.topMapStyle, s.editable, s.threeDBuildingColor)

/-- The derived fields a full `getMapStyles` spread would store. -/
def quadOfDerived (d : DerivedMapStyles) :
    Option StyleDocument × Option StyleDocument × Option Nat × BuildingColor :=
  (some d.bottomMapStyle, d.topMapStyle, some d.editable, d.threeDBuildingColor)

/-! ## Concrete fixtures for witnesses and counterexamples -/

def gRoad : LayerGroup := ⟨"road", fun i => i == "road", true⟩

def gWater : LayerGroup := ⟨"water", fun i => i == "water", false⟩

def lightDoc : StyleDocument :=
  { layers := some [{ id := "background", paint := [("background-color", "#eeeeee")] },
                    { id := "road" }, { id := "water" }],
    rest := "light-doc" }

def darkDoc : StyleDocument :=
  { layers := some [{ id := "background", paint := [("background-color", "#ffffff")] },
                    { id := "road" }, { id := "water" }],
    rest := "dark-doc" }

def emptyColorDoc : StyleDocument :=
  { layers := some [{ id := "background", paint := [("background-color", "")] }],
    rest := "empty-color-doc" }

def lightDef : StyleDefinition :=
  { id := some "light", label := some "Light", url := some "mapbox://styles/light",
    style := some lightDoc, layerGroups := [gRoad, gWater] }

def darkPendingDef : StyleDefinition :=
  { id := some "dark", label := some "Dark", url := some "mapbox://styles/dark" }

def darkLoadedDef : StyleDefinition :=
  { id := some "dark", label := some "Dark", url := some "mapbox://styles/dark",
    style := some darkDoc, layerGroups := [gRoad, gWater] }

def styledResolvedDef : StyleDefinition :=
  { id := some "styled", url := some "mapbox://styles/x", accessToken := some "tok",
    style := some lightDoc }

/-- A state on `light` (fully derived) holding a pending `dark` entry. -/
def pendingSwitchState : MapStyleState :=
  { styleType := "light", visibleLayerGroups := [],
    mapStyles := [("light", lightDef), ("dark", darkPendingDef)],
    bottomMapStyle := some lightDoc,
    threeDBuildingColor := .d3Applied .darker "#eeeeee", editable := some 0 }

/-- A state where the only truthy top group (`road`) is hidden on the bottom. -/
def maskedTopState : MapStyleState :=
  { styleType := "light", visibleLayerGroups := [("water", true), ("road", false)],
    topLayerGroups := [("road", true)],
    mapStyles := [("light", lightDef)] }

/-- A state with the default (empty) bottom visibility map. -/
def uncustomizedState : MapStyleState :=
  { styleType := "light", visibleLayerGroups := [], mapStyles := [("light", lightDef)] }

/-- A state whose active style `dark` has not arrived yet at all. -/
def awaitingDarkState : MapStyleState :=
  { styleType := "dark", visibleLayerGroups := [], mapStyles := [("light", lightDef)] }

/-- A state with a custom style staged in `inputStyle`, ready to commit. -/
def stagedInputState : MapStyleState :=
  { styleType := "light", mapStyles := [("light", lightDef)],
    inputStyle := { id := some "custom_style_1", label := some "My style",
                    url := some "mapbox://styles/me/custom", style := some darkDoc,
                    isValid := true, custom := true, layerGroups := [gRoad] } }

/-- A saved config whose single registry entry is already resolved. -/
def resolvedEntryCfg : ConfigPayload :=
  { mapStyles := some [("styled", styledResolvedDef)] }

/-- A registry entry whose saved access token is the empty string (falsy). -/
def emptyTokenDef : StyleDefinition :=
  { id := some "styled", url := some "mapbox://styles/x", accessToken := some "" }

/-- A saved config whose single entry carries an empty-string access token. -/
def emptyTokenCfg : ConfigPayload :=
  { mapStyles := some [("styled", emptyTokenDef)] }

/-- A state holding a default mapbox token. -/
def tokenedState : MapStyleState :=
  { styleType := "light", visibleLayerGroups := [], mapStyles := [("light", lightDef)],
    mapboxApiAccessToken := some "state-tok" }

/-- The `getMapStyles` output for `uncustomizedState`. -/
def uncustomizedDerived : DerivedMapStyles :=
  { bottomMapStyle := lightDoc, topMapStyle := none, editable := 0,
    threeDBuildingColor := .d3Applied .darker "#eeeeee" }

/-! ## Association-list and projection lemmas -/

theorem jsGet_append_of_some {α : Type} {l₂ : List (String × α)} {k : String} {v : α}
    (l₁ : List (String × α)) (h : jsGet l₂ k = some v) :
    jsGet (l₁ ++ l₂) k = some v := by
  induction l₁ with
  | nil => simpa using h
  | cons kv rest ih => simp [jsGet, ih]

theorem jsGet_append_of_none {α : Type} {l₂ : List (String × α)} {k : String}
    (l₁ : List (String × α)) (h : jsGet l₂ k = none) :
    jsGet (l₁ ++ l₂) k = jsGet l₁ k := by
  induction l₁ with
  | nil => simpa using h
  | cons kv rest ih => simp [jsGet, ih]

theorem jsGet_map_value {α β : Type} (f : String → α → β) (l : List (String × α)) (k : String) :
    jsGet (l.map (fun kv => (kv.1, f kv.1 kv.2))) k = (jsGet l k).map (f k) := by
  induction l with
  | nil => rfl
  | cons kv rest ih =>
    simp only [List.map_cons, jsGet, ih]
    cases h : jsGet rest k with
    | some v => simp
    | none =>
      simp only [Option.map_none]
      by_cases hk : kv.1 = k
      · subst hk; simp
      · simp [hk]

theorem jsGet_topLayersOf (T B : VisibilityMap) (g : String) :
    jsGet (topLayersOf T B) g = (jsGet T g).map (fun v => v && truthy B g) := by
  unfold topLayersOf
  exact jsGet_map_value (fun k v => v && truthy B k) T g

theorem truthy_topLayersOf (T B : VisibilityMap) (g : String) :
    truthy (topLayersOf T B) g = (truthy T g && truthy B g) := by
  unfold truthy
  rw [jsGet_topLayersOf]
  cases h : jsGet T g with
  | some v => simp [truthy]
  | none => simp

theorem mergeLayerGroupVisibility_nil (dflt : VisibilityMap) :
    mergeLayerGroupVisibility dflt [] = dflt := by
  unfold mergeLayerGroupVisibility
  induction dflt with
  | nil => rfl
  | cons kv rest ih => simp [jsGet, ih]

theorem applyDerived_styleType (s : MapStyleState) (r : Option DerivedMapStyles) :
    (applyDerived s r).styleType = s.styleType := by
  cases r <;> rfl

theorem applyDerived_visibleLayerGroups (s : MapStyleState) (r : Option DerivedMapStyles) :
    (applyDerived s r).visibleLayerGroups = s.visibleLayerGroups := by
  cases r <;> rfl

theorem applyDerived_mapStyles (s : MapStyleState) (r : Option DerivedMapStyles) :
    (applyDerived s r).mapStyles = s.mapStyles := by
  cases r <;> rfl

theorem applyDerived_inputStyle (s : MapStyleState) (r : Option DerivedMapStyles) :
    (applyDerived s r).inputStyle = s.inputStyle := by
  cases r <;> rfl

theorem getMapStylesOf_applyDerived (s : MapStyleState) (r : Option DerivedMapStyles) :
    getMapStylesOf (applyDerived s r) = getMapStylesOf s := by
  cases r <;> rfl

theorem mapStyleChangeUpdater_mapStyles (s : MapStyleState) (t : String) :
    (mapStyleChangeUpdater s t).mapStyles = s.mapStyles := by
  unfold mapStyleChangeUpdater
  cases jsGet s.mapStyles t with
  | none => rfl
  | some styleDef => rw [applyDerived_mapStyles]

theorem mapStyleChangeUpdater_inputStyle (s : MapStyleState) (t : String) :
    (mapStyleChangeUpdater s t).inputStyle = s.inputStyle := by
  unfold mapStyleChangeUpdater
  cases jsGet s.mapStyles t with
  | none => rfl
  | some styleDef => rw [applyDerived_inputStyle]

theorem groupVisibleIn_editMapStyle (groups : List LayerGroup) (doc : StyleDocument)
    (vm : VisibilityMap) (slug : String) (hvm : vm ≠ []) (hg : truthy vm slug = false) :
    groupVisibleIn groups (editMapStyle groups doc vm) slug = false := by
  have hvm' : vm.isEmpty = false := by
    cases vm with
    | nil => exact absurd rfl hvm
    | cons a l => rfl
  unfold editMapStyle
  rw [if_neg (by simp [hvm'])]
  unfold groupVisibleIn
  cases hls : doc.layers with
  | none => rfl
  | some ls =>
    simp only [hls, Option.map_some', Option.getD_some, List.any_map, List.any_eq_false,
      Function.comp]
    intro l hl
    cases hfind : groups.find? (fun g => g.filter l.id) with
    | none =>
      simp [assignedGroup, hfind]
    | some g =>
      have hid : ({ l with visibility := truthy vm g.slug } : Layer).id = l.id := rfl
      simp only [hfind, assignedGroup, hid, Option.map_some']
      by_cases hslug : g.slug = slug
      · subst hslug
        simp [hg]
      · simp [hslug]

/-! ## Claim theorems -/

/-- C1 (amended): `mapStyleChangeUpdater` returns the state unchanged exactly
when `mapStyles[newId]` is absent.  When the entry is present — even with a
null `.style` — the updater still sets `styleType := newId` and merges the
layer-group visibility; only the derived fields are carried over unchanged in
the unresolved case (the `getMapStyles` spread contributes nothing). -/
theorem mapStyleChange_noop_iff_entry_absent (s : MapStyleState) (newId : String) :
    (jsGet s.mapStyles newId = none → mapStyleChangeUpdater s newId = s)
    ∧ (∀ defn, jsGet s.mapStyles newId = some defn →
        (mapStyleChangeUpdater s newId).styleType = newId
        ∧ (mapStyleChangeUpdater s newId).visibleLayerGroups
            = mergeLayerGroupVisibility (getDefaultLayerGroupVisibility defn) s.visibleLayerGroups
        ∧ (defn.style = none →
            derivedQuad (mapStyleChangeUpdater s newId) = derivedQuad s)) := by
  constructor
  · intro h
    simp only [mapStyleChangeUpdater, h]
  · intro defn h
    have hred : mapStyleChangeUpdater s newId
        = applyDerived
            { s with
              styleType := newId,
              visibleLayerGroups :=
                mergeLayerGroupVisibility (getDefaultLayerGroupVisibility defn)
                  s.visibleLayerGroups }
            (getMapStyles newId
              (mergeLayerGroupVisibility (getDefaultLayerGroupVisibility defn)
                s.visibleLayerGroups)
              s.topLayerGroups s.mapStyles) := by
      simp only [mapStyleChangeUpdater, h]
    refine ⟨?_, ?_, ?_⟩
    · rw [hred, applyDerived_styleType]
    · rw [hred, applyDerived_visibleLayerGroups]
    · intro hstyle
      have hnone : getMapStyles newId
          (mergeLayerGroupVisibility (getDefaultLayerGroupVisibility defn) s.visibleLayerGroups)
          s.topLayerGroups s.mapStyles = none := by
        simp only [getMapStyles, h, hstyle]
      rw [hred, hnone]
      rfl

/-- C1 counterexample: on a state whose `dark` entry is present but has a null
`.style`, `mapStyleChangeUpdater(s, {payload: "dark"})` is *not* a no-op: it
changes `styleType` from `"light"` to `"dark"`. -/
theorem mapStyleChange_pending_entry_changes_styleType :
    pendingSwitchState.styleType = "light"
    ∧ jsGet pendingSwitchState.mapStyles "dark" = some darkPendingDef
    ∧ darkPendingDef.style = none
    ∧ (mapStyleChangeUpdater pendingSwitchState "dark").styleType = "dark" :=
  ⟨rfl, rfl, rfl, rfl⟩

/-- C1 witness: the amended theorem applied to concrete states. -/
theorem mapStyleChange_noop_iff_entry_absent_witness :
    mapStyleChangeUpdater pendingSwitchState "missing" = pendingSwitchState
    ∧ (mapStyleChangeUpdater pendingSwitchState "dark").visibleLayerGroups
        = mergeLayerGroupVisibility (getDefaultLayerGroupVisibility darkPendingDef)
            pendingSwitchState.visibleLayerGroups
    ∧ derivedQuad (mapStyleChangeUpdater pendingSwitchState "dark")
        = derivedQuad pendingSwitchState :=
  ⟨(mapStyleChange_noop_iff_entry_absent pendingSwitchState "missing").1 rfl,
   ((mapStyleChange_noop_iff_entry_absent pendingSwitchState "dark").2 darkPendingDef rfl).2.1,
   ((mapStyleChange_noop_iff_entry_absent pendingSwitchState "dark").2 darkPendingDef rfl).2.2 rfl⟩

/-- C3 (amended): `mapConfigChangeUpdater` always recomputes: whenever the
recomputation from the resulting state's canonical inputs yields output, the
stored derived fields equal it, and when the active entry is unresolved the
previous derived fields are carried over unchanged.  `mapStyleChangeUpdater`
behaves the same when the target entry exists, and is a complete no-op when it
does not.  (In particular a switch to a present-but-unresolved style keeps the
previous style's derived output — it does *not* clear it.) -/
theorem updaters_derived_fields_fresh_or_carried :
    (∀ s p, (∀ d, getMapStylesOf (mapConfigChangeUpdater s p) = some d →
        derivedQuad (mapConfigChangeUpdater s p) = quadOfDerived d)
      ∧ (getMapStylesOf (mapConfigChangeUpdater s p) = none →
        derivedQuad (mapConfigChangeUpdater s p) = derivedQuad s))
    ∧ (∀ s t defn, jsGet s.mapStyles t = some defn →
        (∀ d, getMapStylesOf (mapStyleChangeUpdater s t) = some d →
          derivedQuad (mapStyleChangeUpdater s t) = quadOfDerived d)
        ∧ (getMapStylesOf (mapStyleChangeUpdater s t) = none →
          derivedQuad (mapStyleChangeUpdater s t) = derivedQuad s))
    ∧ (∀ s t, jsGet s.mapStyles t = none → mapStyleChangeUpdater s t = s) := by
  refine ⟨?_, ?_, ?_⟩
  · intro s p
    have hu : mapConfigChangeUpdater s p
        = applyDerived (mergeConfig s p) (getMapStylesOf (mergeConfig s p)) := rfl
    have hsame : getMapStylesOf (mapConfigChangeUpdater s p)
        = getMapStylesOf (mergeConfig s p) := by
      rw [hu, getMapStylesOf_applyDerived]
    constructor
    · intro d hd
      rw [hsame] at hd
      rw [hu, hd]
      rfl
    · intro hd
      rw [hsame] at hd
      rw [hu, hd]
      rfl
  · intro s t defn h
    have hred : mapStyleChangeUpdater s t
        = applyDerived
            { s with
              styleType := t,
              visibleLayerGroups :=
                mergeLayerGroupVisibility (getDefaultLayerGroupVisibility defn)
                  s.visibleLayerGroups }
            (getMapStyles t
              (mergeLayerGroupVisibility (getDefaultLayerGroupVisibility defn)
                s.visibleLayerGroups)
              s.topLayerGroups s.mapStyles) := by
      simp only [mapStyleChangeUpdater, h]
    have hsame : getMapStylesOf (mapStyleChangeUpdater s t)
        = getMapStyles t
            (mergeLayerGroupVisibility (getDefaultLayerGroupVisibility defn)
              s.visibleLayerGroups)
            s.topLayerGroups s.mapStyles := by
      rw [hred, getMapStylesOf_applyDerived]
      rfl
    constructor
    · intro d hd
      rw [hsame] at hd
      rw [hred, hd]
      rfl
    · intro hd
      rw [hsame] at hd
      rw [hred, hd]
      rfl
  · intro s t h
    simp only [mapStyleChangeUpdater, h]

/-- C3 counterexample: switching `pendingSwitchState` to the pending `dark`
entry yields a state whose recomputation produces no derived output, yet the
state still stores the previous (`light`) style's `bottomMapStyle` — a stale
leftover, contradicting "no derived output left over from a previously active
style". -/
theorem mapStyleChange_stale_derived_on_pending :
    getMapStylesOf (mapStyleChangeUpdater pendingSwitchState "dark") = none
    ∧ (mapStyleChangeUpdater pendingSwitchState "dark").styleType = "dark"
    ∧ (mapStyleChangeUpdater pendingSwitchState "dark").bottomMapStyle = some lightDoc :=
  ⟨rfl, rfl, rfl⟩

/-- C3 witness: the amended theorem applied to concrete states. -/
theorem updaters_derived_fields_fresh_or_carried_witness :
    derivedQuad (mapConfigChangeUpdater uncustomizedState {}) = quadOfDerived uncustomizedDerived
    ∧ derivedQuad (mapStyleChangeUpdater pendingSwitchState "dark")
        = derivedQuad pendingSwitchState :=
  ⟨(updaters_derived_fields_fresh_or_carried.1 uncustomizedState {}).1 uncustomizedDerived
      (by decide),
   (updaters_derived_fields_fresh_or_carried.2.1 pendingSwitchState "dark" darkPendingDef
      rfl).2 (by decide)⟩

/-- C2 (amended): for a resolved active style with non-empty
`visibleLayerGroups`, the effective top visibility used for group `g` is
`topLayerGroups[g] && visibleLayerGroups[g]`, and a group whose bottom
visibility is false is never visible in the produced top style; however the
top style is produced whenever *some entry of `topLayerGroups` is truthy*,
regardless of the masked intersection (the source tests
`Object.values(topLayerGroups).some(v => v)` before masking). -/
theorem getMapStyles_top_masking (s : MapStyleState) (defn : StyleDefinition)
    (doc : StyleDocument)
    (hdef : jsGet s.mapStyles s.styleType = some defn)
    (hdoc : defn.style = some doc)
    (hB : s.visibleLayerGroups ≠ []) :
    (∀ g, truthy (topLayersOf s.topLayerGroups s.visibleLayerGroups) g
        = (truthy s.topLayerGroups g && truthy s.visibleLayerGroups g))
    ∧ (∀ g topdoc,
        (getMapStylesOf s).bind (fun d => d.topMapStyle) = some topdoc →
        truthy s.visibleLayerGroups g = false →
        groupVisibleIn defn.layerGroups topdoc g = false)
    ∧ ((getMapStylesOf s).bind (fun d => d.topMapStyle) ≠ none
        ↔ s.topLayerGroups.any (fun kv => kv.2) = true) := by
  have hlen : s.visibleLayerGroups.length ≠ 0 := by
    intro h0
    exact hB (List.length_eq_zero.mp h0)
  have hd1 : decide (s.visibleLayerGroups.length ≠ 0) = true := decide_eq_true hlen
  have hbind : (getMapStylesOf s).bind (fun d => d.topMapStyle)
      = (if (decide (s.visibleLayerGroups.length ≠ 0)
            && s.topLayerGroups.any (fun kv => kv.2)) = true
         then some (editMapStyle defn.layerGroups doc
                (topLayersOf s.topLayerGroups s.visibleLayerGroups))
         else none) := by
    simp only [getMapStylesOf, getMapStyles, hdef, hdoc, Option.some_bind]
  refine ⟨fun g => truthy_topLayersOf _ _ g, ?_, ?_⟩
  · intro g topdoc htop hg
    rw [hbind] at htop
    cases hT : s.topLayerGroups.any (fun kv => kv.2) with
    | false =>
      rw [hd1, hT] at htop
      simp at htop
    | true =>
      rw [hd1, hT] at htop
      simp only [Bool.and_self, if_pos] at htop
      have hTne : s.topLayerGroups ≠ [] := by
        intro hnil
        rw [hnil] at hT
        simp [List.any] at hT
      have hvmne : topLayersOf s.topLayerGroups s.visibleLayerGroups ≠ [] := by
        intro hnil
        exact hTne (List.map_eq_nil_iff.mp hnil)
      have hmask : truthy (topLayersOf s.topLayerGroups s.visibleLayerGroups) g = false := by
        rw [truthy_topLayersOf, hg, Bool.and_false]
      rw [← Option.some_inj.mp htop]
      exact groupVisibleIn_editMapStyle _ _ _ _ hvmne hmask
  · rw [hbind]
    cases hT : s.topLayerGroups.any (fun kv => kv.2) with
    | false => simp [hd1, hT]
    | true => simp [hd1, hT, hB]

/-- C2 counterexample: on `maskedTopState` no group is visible under the
masked intersection (`road` is the only truthy top group and it is hidden on
the bottom), yet `getMapStyles` still produces a top style. -/
theorem getMapStyles_top_produced_without_masked_visible :
    truthy maskedTopState.visibleLayerGroups "road" = false
    ∧ truthy maskedTopState.topLayerGroups "road" = true
    ∧ (topLayersOf maskedTopState.topLayerGroups maskedTopState.visibleLayerGroups).any
        (fun kv => kv.2) = false
    ∧ ((getMapStylesOf maskedTopState).bind (fun d => d.topMapStyle)).isSome = true :=
  ⟨rfl, rfl, rfl, rfl⟩

/-- C2 witness: the amended theorem applied to `maskedTopState` and `road`. -/
theorem getMapStyles_top_masking_witness :
    truthy (topLayersOf maskedTopState.topLayerGroups maskedTopState.visibleLayerGroups) "road"
      = (truthy maskedTopState.topLayerGroups "road"
          && truthy maskedTopState.visibleLayerGroups "road")
    ∧ ((getMapStylesOf maskedTopState).bind (fun d => d.topMapStyle) ≠ none
        ↔ maskedTopState.topLayerGroups.any (fun kv => kv.2) = true) :=
  ⟨(getMapStyles_top_masking maskedTopState lightDef lightDoc rfl rfl (by decide)).1 "road",
   (getMapStyles_top_masking maskedTopState lightDef lightDoc rfl rfl (by decide)).2.2⟩

theorem mapStyleChangeUpdater_entry_some (s : MapStyleState) (t : String)
    (defn : StyleDefinition) (h : jsGet s.mapStyles t = some defn) :
    mapStyleChangeUpdater s t
      = applyDerived
          { s with
            styleType := t,
            visibleLayerGroups :=
              mergeLayerGroupVisibility (getDefaultLayerGroupVisibility defn)
                s.visibleLayerGroups }
          (getMapStyles t
            (mergeLayerGroupVisibility (getDefaultLayerGroupVisibility defn)
              s.visibleLayerGroups)
            s.topLayerGroups s.mapStyles) := by
  simp only [mapStyleChangeUpdater, h]

/-- C4: committing a staged custom style whose `inputStyle.id` is set stores
the previous `inputStyle` under that id in `mapStyles`, switches `styleType`
to the new id, and resets `inputStyle` to the blank defaults (no id, null
style and url, `isValid: false`, `custom: true`). -/
theorem addCustomMapStyle_commits_inputStyle (s : MapStyleState) (cid : String)
    (h : s.inputStyle.id = some cid) :
    jsGet (addCustomMapStyleUpdater s).mapStyles cid = some s.inputStyle
    ∧ (addCustomMapStyleUpdater s).styleType = cid
    ∧ (addCustomMapStyleUpdater s).inputStyle = getInitialInputStyle
    ∧ getInitialInputStyle.id = none ∧ getInitialInputStyle.style = none
    ∧ getInitialInputStyle.url = none ∧ getInitialInputStyle.isValid = false
    ∧ getInitialInputStyle.custom = true := by
  have hin : jsGet (objSpread s.mapStyles [(cid, s.inputStyle)]) cid = some s.inputStyle :=
    jsGet_append_of_some s.mapStyles (by simp [jsGet])
  have hred : addCustomMapStyleUpdater s
      = mapStyleChangeUpdater
          { s with
            mapStyles := objSpread s.mapStyles [(cid, s.inputStyle)],
            inputStyle := getInitialInputStyle } cid := by
    simp only [addCustomMapStyleUpdater, h, Option.getD_some]
  have hstep := mapStyleChangeUpdater_entry_some
      { s with
        mapStyles := objSpread s.mapStyles [(cid, s.inputStyle)],
        inputStyle := getInitialInputStyle } cid s.inputStyle hin
  refine ⟨?_, ?_, ?_, rfl, rfl, rfl, rfl, rfl⟩
  · rw [hred, mapStyleChangeUpdater_mapStyles]
    exact hin
  · rw [hred, hstep, applyDerived_styleType]
  · rw [hred, mapStyleChangeUpdater_inputStyle]

/-- C4 witness: committing the staged style `custom_style_1`. -/
theorem addCustomMapStyle_commits_inputStyle_witness :
    jsGet (addCustomMapStyleUpdater stagedInputState).mapStyles "custom_style_1"
      = some stagedInputState.inputStyle
    ∧ (addCustomMapStyleUpdater stagedInputState).styleType = "custom_style_1"
    ∧ (addCustomMapStyleUpdater stagedInputState).inputStyle = getInitialInputStyle :=
  ⟨(addCustomMapStyle_commits_inputStyle stagedInputState "custom_style_1" rfl).1,
   (addCustomMapStyle_commits_inputStyle stagedInputState "custom_style_1" rfl).2.1,
   (addCustomMapStyle_commits_inputStyle stagedInputState "custom_style_1" rfl).2.2.1⟩

theorem editMapStyle_nil (groups : List LayerGroup) (doc : StyleDocument) :
    editMapStyle groups doc [] = doc := rfl

theorem loadMapStylesUpdater_mapStyles (s : MapStyleState)
    (newStyles : List (String × StyleDefinition)) :
    (loadMapStylesUpdater s newStyles).mapStyles = objSpread s.mapStyles newStyles := by
  unfold loadMapStylesUpdater
  cases h : jsGet newStyles s.styleType with
  | none => simp [h]
  | some defn => simp [h, mapStyleChangeUpdater_mapStyles]

/-- C5: `loadMapStylesUpdater` merges every payload entry into `mapStyles`
(new ids win, all other pre-existing entries read unchanged); when the active
`styleType` is among the payload ids it additionally runs
`mapStyleChangeUpdater` for it, so that on a not-yet-customized state
(`visibleLayerGroups` empty, the spec's default) loading the active style
produces a non-null `bottomMapStyle` equal to editing the delivered document
with that style's default visibility as the bottom layer. -/
theorem loadMapStyles_merges_and_restyles :
    (∀ s newStyles k v, jsGet newStyles k = some v →
        jsGet (loadMapStylesUpdater s newStyles).mapStyles k = some v)
    ∧ (∀ s newStyles k, jsGet newStyles k = none →
        jsGet (loadMapStylesUpdater s newStyles).mapStyles k = jsGet s.mapStyles k)
    ∧ (∀ s newStyles, jsGet newStyles s.styleType ≠ none →
        loadMapStylesUpdater s newStyles
          = mapStyleChangeUpdater
              { s with mapStyles := objSpread s.mapStyles newStyles } s.styleType)
    ∧ (∀ s newStyles defn doc,
        jsGet newStyles s.styleType = some defn → defn.style = some doc →
        s.visibleLayerGroups = [] →
        (loadMapStylesUpdater s newStyles).bottomMapStyle
          = some (editMapStyle defn.layerGroups doc (getDefaultLayerGroupVisibility defn))) := by
  refine ⟨?_, ?_, ?_, ?_⟩
  · intro s newStyles k v h
    rw [loadMapStylesUpdater_mapStyles]
    exact jsGet_append_of_some s.mapStyles h
  · intro s newStyles k h
    rw [loadMapStylesUpdater_mapStyles]
    exact jsGet_append_of_none s.mapStyles h
  · intro s newStyles hne
    cases h : jsGet newStyles s.styleType with
    | none => exact absurd h hne
    | some defn => simp only [loadMapStylesUpdater, h]
  · intro s newStyles defn doc h hdoc hvis
    have h3 : loadMapStylesUpdater s newStyles
        = mapStyleChangeUpdater
            { s with mapStyles := objSpread s.mapStyles newStyles } s.styleType := by
      simp only [loadMapStylesUpdater, h]
    have hin : jsGet (objSpread s.mapStyles newStyles) s.styleType = some defn :=
      jsGet_append_of_some s.mapStyles h
    have hstep := mapStyleChangeUpdater_entry_some
        { s with mapStyles := objSpread s.mapStyles newStyles } s.styleType defn hin
    rw [h3, hstep]
    have hmerge : mergeLayerGroupVisibility (getDefaultLayerGroupVisibility defn)
        ({ s with mapStyles := objSpread s.mapStyles newStyles } : MapStyleState).visibleLayerGroups
        = getDefaultLayerGroupVisibility defn := by
      show mergeLayerGroupVisibility (getDefaultLayerGroupVisibility defn)
          s.visibleLayerGroups = getDefaultLayerGroupVisibility defn
      rw [hvis, mergeLayerGroupVisibility_nil]
    rw [hmerge]
    have hget : getMapStyles ({ s with mapStyles := objSpread s.mapStyles newStyles }
          : MapStyleState).styleType (getDefaultLayerGroupVisibility defn)
          ({ s with mapStyles := objSpread s.mapStyles newStyles } : MapStyleState).topLayerGroups
          ({ s with mapStyles := objSpread s.mapStyles newStyles } : MapStyleState).mapStyles
        = getMapStyles s.styleType (getDefaultLayerGroupVisibility defn) s.topLayerGroups
            (objSpread s.mapStyles newStyles) := rfl
    by_cases hlen : (getDefaultLayerGroupVisibility defn).length = 0
    · have hdnil : getDefaultLayerGroupVisibility defn = [] := List.length_eq_zero.mp hlen
      simp only [getMapStyles, hin, hdoc, hlen, if_pos, applyDerived]
      rw [hdnil, editMapStyle_nil]
    · simp only [getMapStyles, hin, hdoc, hlen, if_neg, applyDerived]
      simp

/-- C5 witness: delivering `dark` while `styleType == "dark"` on a
not-yet-customized state. -/
theorem loadMapStyles_merges_and_restyles_witness :
    jsGet (loadMapStylesUpdater awaitingDarkState [("dark", darkLoadedDef)]).mapStyles "dark"
      = some darkLoadedDef
    ∧ jsGet (loadMapStylesUpdater awaitingDarkState [("dark", darkLoadedDef)]).mapStyles "light"
      = jsGet awaitingDarkState.mapStyles "light"
    ∧ loadMapStylesUpdater awaitingDarkState [("dark", darkLoadedDef)]
      = mapStyleChangeUpdater
          { awaitingDarkState with
            mapStyles := objSpread awaitingDarkState.mapStyles [("dark", darkLoadedDef)] }
          awaitingDarkState.styleType
    ∧ (loadMapStylesUpdater awaitingDarkState [("dark", darkLoadedDef)]).bottomMapStyle
      = some (editMapStyle darkLoadedDef.layerGroups darkDoc
          (getDefaultLayerGroupVisibility darkLoadedDef)) :=
  ⟨loadMapStyles_merges_and_restyles.1 awaitingDarkState [("dark", darkLoadedDef)] "dark"
      darkLoadedDef rfl,
   loadMapStyles_merges_and_restyles.2.1 awaitingDarkState [("dark", darkLoadedDef)] "light" rfl,
   loadMapStyles_merges_and_restyles.2.2.1 awaitingDarkState [("dark", darkLoadedDef)]
      (by
        intro hcon
        have hx : jsGet [("dark", darkLoadedDef)] awaitingDarkState.styleType
            = some darkLoadedDef := rfl
        rw [hx] at hcon
        exact Option.noConfusion hcon),
   loadMapStyles_merges_and_restyles.2.2.2 awaitingDarkState [("dark", darkLoadedDef)]
      darkLoadedDef darkDoc rfl rfl rfl⟩

/-- C6 (amended): when `cfg.mapStyle` is absent the state is returned
unchanged with no task batch; otherwise the next state is
`mapConfigChangeUpdater` and a download task is scheduled for *every* entry of
`cfg.mapStyle.mapStyles` — resolved or not — each tagged with the entry's own
access token when present and non-empty (truthy), else the state's
`mapboxApiAccessToken`; no batch is produced when `mapStyles` is absent. -/
theorem receiveMapConfig_schedules_all_entries :
    (∀ s, receiveMapConfigUpdater s none = (s, none))
    ∧ (∀ s cfg, (receiveMapConfigUpdater s (some cfg)).1 = mapConfigChangeUpdater s cfg)
    ∧ (∀ s cfg, cfg.mapStyles = none → (receiveMapConfigUpdater s (some cfg)).2 = none)
    ∧ (∀ s cfg entries, cfg.mapStyles = some entries →
        (receiveMapConfigUpdater s (some cfg)).2
          = some (entries.map (fun kv =>
              { id := kv.2.id,
                url := getStyleDownloadUrl kv.2.url
                  (jsOrString kv.2.accessToken s.mapboxApiAccessToken) }))) := by
  refine ⟨fun s => rfl, fun s cfg => rfl, ?_, ?_⟩
  · intro s cfg h
    simp only [receiveMapConfigUpdater, h, Option.map_none']
  · intro s cfg entries h
    simp only [receiveMapConfigUpdater, h, Option.map_some']

/-- C6 counterexample: a saved config whose single `mapStyles` entry already
has a resolved `.style` still gets a download task scheduled for it — the
claim's "exactly those entries that lack a resolved .style (and no others)"
fails. -/
theorem receiveMapConfig_schedules_resolved_entry :
    styledResolvedDef.style = some lightDoc
    ∧ (receiveMapConfigUpdater uncustomizedState (some resolvedEntryCfg)).2
        = some [{ id := some "styled", url := ⟨some "mapbox://styles/x", some "tok"⟩ }] :=
  ⟨rfl, rfl⟩

/-- C6 witness: the amended theorem applied to concrete configs, including an
entry whose saved access token is the falsy empty string, whose task is tagged
with the state's token. -/
theorem receiveMapConfig_schedules_all_entries_witness :
    receiveMapConfigUpdater uncustomizedState none = (uncustomizedState, none)
    ∧ (receiveMapConfigUpdater uncustomizedState (some {})).2 = none
    ∧ (receiveMapConfigUpdater uncustomizedState (some resolvedEntryCfg)).2
        = some ([("styled", styledResolvedDef)].map (fun kv =>
            { id := kv.2.id,
              url := getStyleDownloadUrl kv.2.url
                (jsOrString kv.2.accessToken uncustomizedState.mapboxApiAccessToken) }))
    ∧ (receiveMapConfigUpdater tokenedState (some emptyTokenCfg)).2
        = some ([("styled", emptyTokenDef)].map (fun kv =>
            { id := kv.2.id,
              url := getStyleDownloadUrl kv.2.url
                (jsOrString kv.2.accessToken tokenedState.mapboxApiAccessToken) }))
    ∧ jsOrString emptyTokenDef.accessToken tokenedState.mapboxApiAccessToken
        = some "state-tok" :=
  ⟨receiveMapConfig_schedules_all_entries.1 uncustomizedState,
   receiveMapConfig_schedules_all_entries.2.2.1 uncustomizedState {} rfl,
   receiveMapConfig_schedules_all_entries.2.2.2 uncustomizedState resolvedEntryCfg
     [("styled", styledResolvedDef)] rfl,
   receiveMapConfig_schedules_all_entries.2.2.2 tokenedState emptyTokenCfg
     [("styled", emptyTokenDef)] rfl,
   rfl⟩

/-- C7: with the active style resolved and `visibleLayerGroups` empty, the
bottom map style produced by `getMapStyles` is the resolved document itself,
unchanged; and editing any document with the empty visibility map is the
identity. -/
theorem bottomMapStyle_identity_when_uncustomized (s : MapStyleState)
    (defn : StyleDefinition) (D : StyleDocument)
    (hdef : jsGet s.mapStyles s.styleType = some defn)
    (hdoc : defn.style = some D)
    (hvis : s.visibleLayerGroups = []) :
    (getMapStylesOf s).map (fun d => d.bottomMapStyle) = some D
    ∧ ∀ groups, editMapStyle groups D [] = D := by
  constructor
  · simp only [getMapStylesOf, getMapStyles, hdef, hdoc, hvis]
    simp
  · intro groups
    exact editMapStyle_nil groups D

/-- C7 witness: the fast path on `uncustomizedState`. -/
theorem bottomMapStyle_identity_when_uncustomized_witness :
    (getMapStylesOf uncustomizedState).map (fun d => d.bottomMapStyle) = some lightDoc
    ∧ editMapStyle lightDef.layerGroups lightDoc [] = lightDoc :=
  ⟨(bottomMapStyle_identity_when_uncustomized uncustomizedState lightDef lightDoc
      rfl rfl rfl).1,
   (bottomMapStyle_identity_when_uncustomized uncustomizedState lightDef lightDoc
      rfl rfl rfl).2 lightDef.layerGroups⟩

/-- C8 (amended): the deriver uses the background layer's `background-color`
paint when the layer exists and the property holds a non-empty (truthy) value
and the fixed fallback `#D1CEC7` otherwise, and it brightens exactly when the
style id contains the substring `"dark"` or `"night"` (case-sensitive),
darkening otherwise. -/
theorem get3DBuildingColor_selection (i : String) (doc : StyleDocument)
    (h : bgPaint doc ≠ some "") :
    get3DBuildingColor (some i) doc
      = .d3Applied
          (if containsSubstring i "dark" || containsSubstring i "night"
           then .brighter else .darker)
          ((bgPaint doc).getD DEFAULT_BLDG_COLOR) := by
  cases hfind : (doc.layers.getD []).find? (fun l => l.id == "background") with
  | none =>
    simp [get3DBuildingColor, bgPaint, hfind, matchDarkNight]
  | some l =>
    cases hpaint : jsGet l.paint "background-color" with
    | none =>
      simp [get3DBuildingColor, bgPaint, hfind, hpaint, matchDarkNight]
    | some c =>
      have hbg : bgPaint doc = some c := by
        simp [bgPaint, hfind, hpaint]
      have hc : ¬c = "" := fun hc' => h (hc' ▸ hbg)
      simp [get3DBuildingColor, hfind, hpaint, matchDarkNight, hc, hbg]

/-- C8 counterexample: a background layer whose `background-color` property
*exists* but holds the empty string still falls back to `#D1CEC7` (the source
tests JavaScript truthiness, not presence). -/
theorem get3DBuildingColor_empty_string_falls_back :
    bgPaint emptyColorDoc = some ""
    ∧ get3DBuildingColor (some "day") emptyColorDoc = .d3Applied .darker DEFAULT_BLDG_COLOR :=
  ⟨rfl, rfl⟩

/-- C8 witness: the selection theorem on the white-background dark style. -/
theorem get3DBuildingColor_selection_witness :
    get3DBuildingColor (some "dark") darkDoc
      = .d3Applied
          (if containsSubstring "dark" "dark" || containsSubstring "dark" "night"
           then .brighter else .darker)
          ((bgPaint darkDoc).getD DEFAULT_BLDG_COLOR) :=
  get3DBuildingColor_selection "dark" darkDoc (by decide)

/-- C9 (amended): each output channel is the parsed base channel scaled by
the d3 factor, with no integer rounding and no clamping: brightening never
decreases a channel (and can exceed 255), darkening never increases it, and
channels stay nonnegative. -/
theorem d3_channels_unclamped_monotone :
    ∀ c : Nat, ((c : ℝ) ≤ d3ApplyChannel .brighter c)
      ∧ (d3ApplyChannel .darker c ≤ (c : ℝ))
      ∧ (0 ≤ d3ApplyChannel .brighter c) ∧ (0 ≤ d3ApplyChannel .darker c) := by
  intro c
  have hb : 1 ≤ d3Factor .brighter := Real.one_le_rpow (by norm_num) (by norm_num)
  have hd : d3Factor .darker ≤ 1 := Real.rpow_le_one (by norm_num) (by norm_num) (by norm_num)
  have hdnn : 0 ≤ d3Factor .darker := Real.rpow_nonneg (by norm_num) _
  have hbnn : 0 ≤ d3Factor .brighter := Real.rpow_nonneg (by norm_num) _
  have hc : (0 : ℝ) ≤ (c : ℝ) := Nat.cast_nonneg c
  refine ⟨?_, ?_, ?_, ?_⟩ <;> unfold d3ApplyChannel <;> nlinarith

/-- C9 counterexample: with a white background on a `dark` style id the
deriver brightens, and the brightened channel `255 * (10/7)^(1/5)` strictly
exceeds 255 — so the output is not clamped to `[0, 255]`. -/
theorem d3_brighter_exceeds_255_on_white :
    get3DBuildingColor (some "dark") darkDoc = .d3Applied .brighter "#ffffff"
    ∧ parseHexColor "#ffffff" = some (255, 255, 255)
    ∧ (255 : ℝ) < d3ApplyChannel .brighter 255 := by
  refine ⟨rfl, by decide, ?_⟩
  have h1 : 1 < d3Factor .brighter := Real.one_lt_rpow (by norm_num) (by norm_num)
  unfold d3ApplyChannel
  have hcast : ((255 : Nat) : ℝ) = (255 : ℝ) := by norm_num
  rw [hcast]
  nlinarith

/-- C10: the classifier yields zero matches on an *empty* `layers` sequence,
but on a *missing* `layers` key `style.layers.filter` raises a `TypeError` —
the source has no guard here (unlike the `|| []` in `get3DBuildingColor`), so
the claim's "no fatal error" fails for the missing case. -/
theorem getLayerGroupsFromStyle_missing_vs_empty :
    ∀ (groups : List LayerGroup) (r e : String),
      getLayerGroupsFromStyle groups { layers := none, rest := r }
        = .error "TypeError: Cannot read property filter of undefined"
      ∧ getLayerGroupsFromStyle groups { layers := some [], rest := e } = .ok [] := by
  intro groups r e
  refine ⟨rfl, ?_⟩
  simp [getLayerGroupsFromStyle, List.filter_eq_nil_iff]
